import Mathlib

/-! Shallow embedding of `src/proxy.py`, a caching proxy in front of a
key-value store server.  The pure control flow of the Python functions is
translated directly; the network is abstracted as a per-connection oracle
`backend : String → NetOutcome` giving the outcome of forwarding one command
line to the backend server.  `library.py` is imported by `proxy.py` but is not
among the repository sources, so the pieces of it the proxy uses
(`KeyValueStore`, `ParseCommand`) are modelled from the spec; every such
definition is marked `Modelled from the spec`. -/

set_option autoImplicit false

/-- Modelled from the spec: a Cache Store entry `{ value, writtenAt }`
(`library.KeyValueStore` is not under `src/`; §3 of the spec gives the data
model). -/
structure CacheEntry where
  value : String
  writtenAt : Nat
deriving DecidableEq

/-- Modelled from the spec: the Cache Store, a mapping from key to `CacheEntry`,
keys unique, insertion order kept for enumeration (spec §3). -/
structure KeyValueStore where
  entries : List (String × CacheEntry)
deriving DecidableEq

def emptyStore : KeyValueStore := ⟨[]⟩

def lookupEntries : List (String × CacheEntry) → String → Option CacheEntry
  | [], _ => none
  | p :: ps, k => if p.1 = k then some p.2 else lookupEntries ps k

def KeyValueStore.lookup (s : KeyValueStore) (key : String) : Option CacheEntry :=
  lookupEntries s.entries key

def storeEntries : List (String × CacheEntry) → String → CacheEntry → List (String × CacheEntry)
  | [], k, e => [(k, e)]
  | p :: ps, k, e => if p.1 = k then (k, e) :: ps else p :: storeEntries ps k e

/-- Modelled from the spec: `StoreValue(key, value)` unconditionally overwrites
any existing entry for `key` with the given value and the current timestamp
(spec §4.1). -/
def KeyValueStore.StoreValue (s : KeyValueStore) (key value : String) (now : Nat) :
    KeyValueStore :=
  ⟨storeEntries s.entries key ⟨value, now⟩⟩

/-- Modelled from the spec: `GetValue(key, maxAge)` returns the stored value if
an entry exists and `now - writtenAt ≤ maxAge`, and otherwise signals a miss by
an explicit not-found result (spec §4.1). -/
def KeyValueStore.GetValue (s : KeyValueStore) (key : String) (maxAge now : Nat) :
    Option String :=
  match s.lookup key with
  | none => none
  | some e => if now - e.writtenAt ≤ maxAge then some e.value else none

/-- proxy.py line 31: `MAX_CACHE_AGE_SEC = 60.0`, in whole seconds. -/
def MAX_CACHE_AGE_SEC : Nat := 60

/-- Python truthiness of the value returned by `cache.GetValue`, as tested by
`if not res:` at proxy.py line 100: a missing value and the empty string are
both falsy. -/
def pyFalsy : Option String → Bool
  | none => true
  | some s => s == ""

def isNL (c : Char) : Bool := c == '\n'

/-- Python `s.strip('\n')` as used at proxy.py line 56: removes all leading and
all trailing newline characters. -/
def stripNL (s : String) : String :=
  ⟨((s.data.dropWhile isNL).reverse.dropWhile isNL).reverse⟩

/-- Outcome of one backend round trip attempt, as seen from
`ForwardCommandToServer`: the TCP connect may fail, the send may fail, the
receive may fail, or a response line is received. -/
inductive NetOutcome where
  | connectFail
  | sendFail
  | recvFail
  | ok (line : String)
deriving DecidableEq

inductive NetErr where
  | connectError
  | sendError
  | recvError
deriving DecidableEq

/-- Python exceptions that can escape the command handlers: a socket error from
the backend round trip, or the `NameError` raised by the unbound local `text`
at proxy.py line 104. -/
inductive PyError where
  | net (e : NetErr)
  | nameError
deriving DecidableEq

/-- Result of `ForwardCommandToServer`: the returned response or the raised
error, plus whether `sock.close()` ran before the function exited. -/
structure ForwardResult where
  result : Except NetErr String
  socketClosed : Bool

/-- proxy.py `ForwardCommandToServer` (lines 34-61).  The socket is created and
`sock.connect` is called before the `try` block, so a connect failure
propagates without the `finally: sock.close()` running; send and receive
failures raise inside the `try`, so the `finally` closes the socket before the
error propagates; on success the response is stripped of newlines and the
socket is closed. -/
def ForwardCommandToServer (commandLine : String) (backend : String → NetOutcome) :
    ForwardResult :=
  match backend commandLine with
  | .connectFail => ⟨.error .connectError, false⟩
  | .sendFail => ⟨.error .sendError, true⟩
  | .recvFail => ⟨.error .recvError, true⟩
  | .ok line => ⟨.ok (stripNL line), true⟩

/-- Result of one command handler: the value returned to the dispatcher or the
Python exception that escaped, the cache afterwards, and how many backend
round trips were attempted. -/
structure CmdOutcome where
  result : Except PyError String
  cache : KeyValueStore
  backendCalls : Nat

/-- proxy.py `PutCommand` (lines 64-82): store the value in the cache, then
relay the PUT to the main server and return its response. -/
def PutCommand (name text : String) (cache : KeyValueStore) (commandLine : String)
    (backend : String → NetOutcome) (now : Nat) : CmdOutcome :=
  let cache' := cache.StoreValue name text now
  match (ForwardCommandToServer commandLine backend).result with
  | .error e => ⟨.error (.net e), cache', 1⟩
  | .ok r => ⟨.ok r, cache', 1⟩

/-- proxy.py `GetCommand` (lines 85-105).  Line 100 tests `if not res:`
(Python truthiness, see `pyFalsy`).  On a miss the command is forwarded; if the
response differs from the sentinel, line 104 executes
`cache.StoreValue(name, text)`, but `text` is not bound anywhere in
`GetCommand`'s scope (nor globally in proxy.py), so Python raises `NameError`
before anything is stored. -/
def GetCommand (name : String) (cache : KeyValueStore) (commandLine : String)
    (backend : String → NetOutcome) (now : Nat) : CmdOutcome :=
  let res := cache.GetValue name MAX_CACHE_AGE_SEC now
  if pyFalsy res then
    match (ForwardCommandToServer commandLine backend).result with
    | .error e => ⟨.error (.net e), cache, 1⟩
    | .ok r =>
      if r = "Key does not exist!" then ⟨.ok r, cache, 1⟩
      else ⟨.error .nameError, cache, 1⟩
  else
    ⟨.ok (res.getD ""), cache, 0⟩

/-- proxy.py `SendText` (lines 129-131): the bytes written to the client socket
are the text followed by exactly one newline. -/
def SendText (text : String) : String := text ++ "\n"

def splitTokens : List Char → List Char → List String
  | [], acc => if acc.isEmpty then [] else [⟨acc.reverse⟩]
  | c :: cs, acc =>
    if c = ' ' ∨ c = '\n' then
      (if acc.isEmpty then [] else [⟨acc.reverse⟩]) ++ splitTokens cs []
    else splitTokens cs (c :: acc)

/-- Modelled from the spec: `ParseCommand(line) -> (verb, key, payload)`
(`library.ParseCommand` is not under `src/`).  The line is tokenized on
whitespace; for `PUT`, all tokens after the key are rejoined as the payload
(spec §6). -/
def ParseCommand (line : String) : String × String × String :=
  match splitTokens line.data [] with
  | [] => ("", "", "")
  | [c] => (c, "", "")
  | c :: k :: rest => (c, k, String.intercalate " " rest)

/-- Outcome of handling one client connection in `ProxyClientCommand`: the
full lines written to the client socket (each already newline-terminated by
`SendText`), the cache afterwards, the number of backend round trips, and the
Python exception that escaped the handler, if any. -/
structure ConnOutcome where
  sentLines : List String
  cache : KeyValueStore
  backendCalls : Nat
  raised : Option PyError
deriving DecidableEq

/-- proxy.py `ProxyClientCommand` (lines 134-165): parse the command line,
route on the verb, and send the result.  There is no exception handler here,
so an error raised by a handler propagates before the final `SendText` at
line 165 runs; on the unknown-verb path line 163 sends an error line and then
line 165 still sends `result`, which is the initial empty string. -/
def ProxyClientCommand (commandLine : String) (cache : KeyValueStore)
    (backend : String → NetOutcome) (now : Nat) : ConnOutcome :=
  match ParseCommand commandLine with
  | (cmd, name, text) =>
    if cmd = "PUT" then
      match PutCommand name text cache commandLine backend now with
      | ⟨.error e, c', n⟩ => ⟨[], c', n, some e⟩
      | ⟨.ok r, c', n⟩ => ⟨[SendText r], c', n, none⟩
    else if cmd = "GET" then
      match GetCommand name cache commandLine backend now with
      | ⟨.error e, c', n⟩ => ⟨[], c', n, some e⟩
      | ⟨.ok r, c', n⟩ => ⟨[SendText r], c', n, none⟩
    else if cmd = "DUMP" then
      match (ForwardCommandToServer commandLine backend).result with
      | .error e => ⟨[], cache, 1, some (.net e)⟩
      | .ok r => ⟨[SendText r], cache, 1, none⟩
    else
      ⟨[SendText ("Unknown command " ++ cmd), SendText ""], cache, 0, none⟩

/-- One incoming connection for the accept loop in `main`: the command line the
client sends and the behaviour of the backend during that connection, at the
wall-clock second `now`. -/
structure ConnInput where
  commandLine : String
  backend : String → NetOutcome
  now : Nat

/-- Outcome of the accept loop of `main`: how many connections were handled
before the loop stopped, the exception that escaped `main` (crashing the
process) if any, and the final cache. -/
structure MainOutcome where
  handled : Nat
  crashed : Option PyError
  cache : KeyValueStore

/-- proxy.py `main` (lines 168-188): each accepted connection is handled by
`ProxyClientCommand` inside `try: ... finally: client_sock.close()`.  There is
no `except` clause, so the `finally` closes the client socket and the
exception then propagates out of the `while True` loop, terminating the
process; later connections are never handled. -/
def mainLoop : List ConnInput → KeyValueStore → MainOutcome
  | [], c => ⟨0, none, c⟩
  | conn :: rest, c =>
    let o := ProxyClientCommand conn.commandLine c conn.backend conn.now
    match o.raised with
    | some e => ⟨1, some e, o.cache⟩
    | none =>
      let m := mainLoop rest o.cache
      ⟨m.handled + 1, m.crashed, m.cache⟩

/-- Number of newline characters at the end of a string. -/
def trailingNL (s : String) : Nat := (s.data.reverse.takeWhile isNL).length

/-- The values currently stored in the cache contain no newline character.
This holds for every reachable cache: values enter the cache only as parsed
`PUT` payloads, which are whitespace-separated tokens rejoined with spaces. -/
def NoNLValues (c : KeyValueStore) : Prop :=
  ∀ p ∈ c.entries, '\n' ∉ p.2.value.data


/-! ### Helper lemmas -/

theorem data_append (s t : String) : (s ++ t).data = s.data ++ t.data := rfl

theorem takeWhile_dropWhile_nil (p : Char → Bool) (l : List Char) :
    (l.dropWhile p).takeWhile p = [] := by
  induction l with
  | nil => rfl
  | cons c cs ih =>
    by_cases h : p c <;> simp [List.dropWhile_cons, List.takeWhile_cons, h, ih]

theorem trailingNL_stripNL_append (s : String) : trailingNL (stripNL s ++ "\n") = 1 := by
  show (((stripNL s ++ "\n").data.reverse).takeWhile isNL).length = 1
  rw [data_append]
  show ((((s.data.dropWhile isNL).reverse.dropWhile isNL).reverse ++
    ("\n" : String).data).reverse.takeWhile isNL).length = 1
  rw [List.reverse_append]
  simp [List.takeWhile_cons, isNL, takeWhile_dropWhile_nil]

theorem trailingNL_noNL_append (s : String) (h : '\n' ∉ s.data) :
    trailingNL (s ++ "\n") = 1 := by
  show (((s ++ "\n").data.reverse).takeWhile isNL).length = 1
  rw [data_append]
  show ((s.data ++ ("\n" : String).data).reverse.takeWhile isNL).length = 1
  rw [List.reverse_append]
  simp only [List.reverse_cons, List.reverse_nil, List.nil_append, List.singleton_append,
    List.takeWhile_cons]
  have hnl : isNL '\n' = true := by decide
  rw [hnl]
  cases hrev : s.data.reverse with
  | nil => simp
  | cons a t =>
    have ha : a ∈ s.data := by
      have : a ∈ s.data.reverse := by rw [hrev]; exact List.mem_cons_self a t
      simpa using this
    have hna : isNL a = false := by
      by_contra hc
      have : a = '\n' := by
        have := eq_true_of_ne_false (fun hf => hc hf)
        simpa [isNL] using this
      exact h (this ▸ ha)
    simp [List.takeWhile_cons, hna]

theorem lookupEntries_store_self (l : List (String × CacheEntry)) (k : String) (e : CacheEntry) :
    lookupEntries (storeEntries l k e) k = some e := by
  induction l with
  | nil => simp [storeEntries, lookupEntries]
  | cons p ps ih =>
    by_cases h : p.1 = k <;> simp [storeEntries, lookupEntries, h, ih]

theorem GetValue_StoreValue_self (s : KeyValueStore) (k v : String) (maxAge now now' : Nat)
    (h : now' - now ≤ maxAge) :
    (s.StoreValue k v now).GetValue k maxAge now' = some v := by
  unfold KeyValueStore.GetValue KeyValueStore.lookup KeyValueStore.StoreValue
  simp [lookupEntries_store_self, h]

theorem lookupEntries_mem (l : List (String × CacheEntry)) (k : String) (e : CacheEntry)
    (h : lookupEntries l k = some e) : (k, e) ∈ l := by
  induction l with
  | nil => simp [lookupEntries] at h
  | cons p ps ih =>
    by_cases hp : p.1 = k
    · simp [lookupEntries, hp] at h
      have : p = (k, e) := by
        cases p with
        | mk a b =>
          simp at hp
          simp at h
          rw [hp, h]
      rw [this]
      exact List.mem_cons_self _ _
    · simp [lookupEntries, hp] at h
      exact List.mem_cons_of_mem _ (ih h)

theorem getCommand_hit (name commandLine : String) (cache : KeyValueStore)
    (backend : String → NetOutcome) (now : Nat) (v : String)
    (hv : cache.GetValue name MAX_CACHE_AGE_SEC now = some v) (hne : v ≠ "") :
    GetCommand name cache commandLine backend now = ⟨.ok v, cache, 0⟩ := by
  simp [GetCommand, hv, pyFalsy, hne]

theorem putCommand_cache (name text commandLine : String) (cache : KeyValueStore)
    (backend : String → NetOutcome) (now : Nat) :
    (PutCommand name text cache commandLine backend now).cache =
      cache.StoreValue name text now := by
  unfold PutCommand
  cases h : (ForwardCommandToServer commandLine backend).result <;> simp [h]

theorem proxy_put_eq (line k v : String) (cache : KeyValueStore)
    (backend : String → NetOutcome) (now : Nat)
    (hp : ParseCommand line = ("PUT", k, v)) :
    ProxyClientCommand line cache backend now =
      match (ForwardCommandToServer line backend).result with
      | .error e => ⟨[], cache.StoreValue k v now, 1, some (.net e)⟩
      | .ok r => ⟨[SendText r], cache.StoreValue k v now, 1, none⟩ := by
  unfold ProxyClientCommand PutCommand
  rw [hp]
  cases h : (ForwardCommandToServer line backend).result <;> simp [h]

/-! ### Claims -/

/-- C1: on a GET cache miss whose backend response is not the sentinel, the
code does not store the backend's value in the cache: proxy.py line 104
references the unbound local `text` and raises `NameError`, leaving the cache
unchanged after exactly one backend round trip.  Evaluated at the failing
input `GET x` on the empty cache with backend response `5`. -/
theorem C1_get_miss_raises_name_error :
    GetCommand "x" emptyStore "GET x\n" (fun _ => .ok "5") 0 =
      ⟨.error .nameError, emptyStore, 1⟩ := by rfl

/-- C2: with the backend unreachable, `GET z` on a cache miss sends no failure
response to the client (the socket error propagates before any reply), the
cache is unchanged, and because `main`'s `try/finally` has no `except` clause
the exception escapes the accept loop: of two pending connections only the
first is handled, the loop crashes with the socket error, and the cache stays
unchanged. -/
theorem C2_backend_error_crashes_process :
    (ProxyClientCommand "GET z\n" emptyStore (fun _ => .connectFail) 0).sentLines = [] ∧
    (ProxyClientCommand "GET z\n" emptyStore (fun _ => .connectFail) 0).cache = emptyStore ∧
    (ProxyClientCommand "GET z\n" emptyStore (fun _ => .connectFail) 0).raised =
      some (.net .connectError) ∧
    (mainLoop [⟨"GET z\n", fun _ => .connectFail, 0⟩, ⟨"GET z\n", fun _ => .ok "5", 0⟩]
      emptyStore).handled = 1 ∧
    (mainLoop [⟨"GET z\n", fun _ => .connectFail, 0⟩, ⟨"GET z\n", fun _ => .ok "5", 0⟩]
      emptyStore).crashed = some (.net .connectError) ∧
    (mainLoop [⟨"GET z\n", fun _ => .connectFail, 0⟩, ⟨"GET z\n", fun _ => .ok "5", 0⟩]
      emptyStore).cache = emptyStore :=
  ⟨rfl, rfl, rfl, rfl, rfl, rfl⟩

/-- C3: on the unknown verb `FROB` the dispatcher forwards nothing to the
backend but writes TWO lines to the client: the error line from proxy.py
line 163 and then, because control falls through to line 165, the initial
empty `result` as a second (empty) line. -/
theorem C3_unknown_verb_two_lines :
    (ProxyClientCommand "FROB z\n" emptyStore (fun _ => .ok "5") 0).sentLines =
      ["Unknown command FROB\n", "\n"] ∧
    (ProxyClientCommand "FROB z\n" emptyStore (fun _ => .ok "5") 0).backendCalls = 0 :=
  ⟨by decide, by decide⟩

/-- C4 counterexample: the cache holds a fresh (age 0) entry for `x` whose
value is the empty string, yet `GET x` performs a backend round trip instead
of returning the cached value with no backend contact: proxy.py line 100 tests
`if not res:`, an emptiness check, not an explicit found/not-found result. -/
theorem C4_counterexample_empty_hit_contacts_backend :
    (GetCommand "x" ⟨[("x", ⟨"", 0⟩)]⟩ "GET x\n" (fun _ => .ok "5") 0).backendCalls = 1 := by
  rfl

/-- C4 (amended): for every GET on a key whose cache entry is fresh (age within
the staleness bound) and whose value is non-empty, the dispatcher returns the
cached value directly, with no backend contact and the cache unchanged.  A
fresh entry holding the empty string is instead treated as a miss, because the
dispatcher tests truthiness of the lookup result. -/
theorem C4_fresh_nonempty_hit_no_backend (cache : KeyValueStore) (name line : String)
    (backend : String → NetOutcome) (now : Nat) (v : String)
    (hv : cache.GetValue name MAX_CACHE_AGE_SEC now = some v) (hne : v ≠ "") :
    GetCommand name cache line backend now = ⟨.ok v, cache, 0⟩ :=
  getCommand_hit name line cache backend now v hv hne

theorem C4_fresh_nonempty_hit_no_backend_witness :
    GetCommand "x" ⟨[("x", ⟨"5", 0⟩)]⟩ "GET x\n" (fun _ => .ok "7") 0 =
      ⟨.ok "5", ⟨[("x", ⟨"5", 0⟩)]⟩, 0⟩ :=
  C4_fresh_nonempty_hit_no_backend ⟨[("x", ⟨"5", 0⟩)]⟩ "x" "GET x\n" (fun _ => .ok "7") 0 "5"
    (by decide) (by decide)

/-- C5 counterexample: after `PUT y` with the empty payload returns, the
immediately following `GET y` does contact the backend (one round trip), so
the claimed read-your-write property fails for the value `""`: the fresh
empty-string entry is falsy at proxy.py line 100. -/
theorem C5_counterexample_empty_value :
    (GetCommand "y" ((PutCommand "y" "" emptyStore "PUT y\n" (fun _ => .ok "OK") 0).cache)
      "GET y\n" (fun _ => .ok "OK") 0).backendCalls = 1 := by rfl

/-- C5 (amended): for all keys k and NON-EMPTY values v, after PUT(k, v)
returns locally, a GET(k) within the staleness bound returns v from the cache
without contacting the backend; for v = "" the GET instead treats the fresh
entry as a miss and contacts the backend. -/
theorem C5_read_your_write_nonempty (k v : String) (cache : KeyValueStore)
    (lineP lineG : String) (bP bG : String → NetOutcome) (now now' : Nat)
    (hne : v ≠ "") (hfresh : now' - now ≤ MAX_CACHE_AGE_SEC) :
    GetCommand k ((PutCommand k v cache lineP bP now).cache) lineG bG now' =
      ⟨.ok v, (PutCommand k v cache lineP bP now).cache, 0⟩ := by
  rw [putCommand_cache]
  exact getCommand_hit _ _ _ _ _ _ (GetValue_StoreValue_self cache k v _ now now' hfresh) hne

theorem C5_read_your_write_nonempty_witness :
    GetCommand "y" ((PutCommand "y" "hello world" emptyStore "PUT y hello world\n"
        (fun _ => .ok "OK") 0).cache) "GET y\n" (fun _ => .ok "7") 0 =
      ⟨.ok "hello world", (PutCommand "y" "hello world" emptyStore "PUT y hello world\n"
        (fun _ => .ok "OK") 0).cache, 0⟩ :=
  C5_read_your_write_nonempty "y" "hello world" emptyStore "PUT y hello world\n" "GET y\n"
    (fun _ => .ok "OK") (fun _ => .ok "7") 0 0 (by decide) (by decide)

/-- C6: for every PUT command, the dispatcher first writes the payload into
the Cache Store under the key (the cache is updated no matter how the forward
then turns out, showing the write precedes the forward), performs exactly one
backend forward of the original command line, and when the backend responds it
sends the backend's response to the client. -/
theorem C6_put_cache_then_forward (line k v : String) (cache : KeyValueStore)
    (backend : String → NetOutcome) (now : Nat)
    (hp : ParseCommand line = ("PUT", k, v)) :
    (ProxyClientCommand line cache backend now).cache = cache.StoreValue k v now ∧
    (ProxyClientCommand line cache backend now).backendCalls = 1 ∧
    ∀ resp, backend line = .ok resp →
      (ProxyClientCommand line cache backend now).sentLines = [SendText (stripNL resp)] := by
  rw [proxy_put_eq line k v cache backend now hp]
  refine ⟨?_, ?_, ?_⟩
  · cases h : (ForwardCommandToServer line backend).result <;> simp [h]
  · cases h : (ForwardCommandToServer line backend).result <;> simp [h]
  · intro resp hr
    have h : (ForwardCommandToServer line backend).result = .ok (stripNL resp) := by
      unfold ForwardCommandToServer
      rw [hr]
    rw [h]

theorem C6_put_cache_then_forward_witness :
    (ProxyClientCommand "PUT y hello world\n" emptyStore (fun _ => .ok "OK\n") 0).cache =
      emptyStore.StoreValue "y" "hello world" 0 ∧
    (ProxyClientCommand "PUT y hello world\n" emptyStore (fun _ => .ok "OK\n") 0).backendCalls
      = 1 ∧
    (ProxyClientCommand "PUT y hello world\n" emptyStore (fun _ => .ok "OK\n") 0).sentLines =
      ["OK\n"] := by
  obtain ⟨h1, h2, h3⟩ := C6_put_cache_then_forward "PUT y hello world\n" "y" "hello world"
    emptyStore (fun _ => .ok "OK\n") 0 (by decide)
  refine ⟨h1, h2, ?_⟩
  rw [h3 "OK\n" rfl]
  decide

/-- C7 counterexample: when connection establishment itself fails, the socket
is NOT released: `sock.connect` at proxy.py line 48 sits before the
`try`/`finally`, so `sock.close()` never runs on that path. -/
theorem C7_counterexample_connect_fail_leaks :
    (ForwardCommandToServer "GET x\n" (fun _ => .connectFail)).socketClosed = false := rfl

/-- C7 (amended): every forwarding call opens a fresh connection and releases
it on every exit path that gets past connection establishment (success, or a
send/receive failure); only when connection establishment itself fails is the
socket left unclosed. -/
theorem C7_forward_releases_after_connect (line : String) (backend : String → NetOutcome)
    (h : backend line ≠ .connectFail) :
    (ForwardCommandToServer line backend).socketClosed = true := by
  unfold ForwardCommandToServer
  cases hb : backend line <;> simp_all

theorem C7_forward_releases_after_connect_witness :
    (ForwardCommandToServer "GET x\n" (fun _ => .ok "5")).socketClosed = true :=
  C7_forward_releases_after_connect "GET x\n" (fun _ => .ok "5") (by simp)

theorem proxy_get_eq (line k v : String) (cache : KeyValueStore)
    (backend : String → NetOutcome) (now : Nat)
    (hp : ParseCommand line = ("GET", k, v)) :
    ProxyClientCommand line cache backend now =
      match GetCommand k cache line backend now with
      | ⟨.error e, c', n⟩ => ⟨[], c', n, some e⟩
      | ⟨.ok r, c', n⟩ => ⟨[SendText r], c', n, none⟩ := by
  unfold ProxyClientCommand
  rw [hp]
  simp

theorem proxy_dump_eq (line k v : String) (cache : KeyValueStore)
    (backend : String → NetOutcome) (now : Nat)
    (hp : ParseCommand line = ("DUMP", k, v)) :
    ProxyClientCommand line cache backend now =
      match (ForwardCommandToServer line backend).result with
      | .error e => ⟨[], cache, 1, some (.net e)⟩
      | .ok r => ⟨[SendText r], cache, 1, none⟩ := by
  unfold ProxyClientCommand
  rw [hp]
  cases h : (ForwardCommandToServer line backend).result <;> simp [h]

/-- C8: a DUMP command leaves the cache exactly as it was, performs exactly one
backend forward, when the backend responds the line sent to the client is the
backend's (newline-stripped) response, and neither the reply sent to the
client nor the raised exception depends on the cache contents (the cache is
not read). -/
theorem C8_dump_ignores_cache (line k v : String) (c1 c2 : KeyValueStore)
    (backend : String → NetOutcome) (now : Nat)
    (hp : ParseCommand line = ("DUMP", k, v)) :
    (ProxyClientCommand line c1 backend now).cache = c1 ∧
    (ProxyClientCommand line c1 backend now).backendCalls = 1 ∧
    (∀ resp, backend line = .ok resp →
      (ProxyClientCommand line c1 backend now).sentLines = [SendText (stripNL resp)]) ∧
    (ProxyClientCommand line c1 backend now).sentLines =
      (ProxyClientCommand line c2 backend now).sentLines ∧
    (ProxyClientCommand line c1 backend now).raised =
      (ProxyClientCommand line c2 backend now).raised := by
  rw [proxy_dump_eq line k v c1 backend now hp, proxy_dump_eq line k v c2 backend now hp]
  refine ⟨?_, ?_, ?_, ?_, ?_⟩
  · cases h : (ForwardCommandToServer line backend).result <;> simp [h]
  · cases h : (ForwardCommandToServer line backend).result <;> simp [h]
  · intro resp hr
    have h : (ForwardCommandToServer line backend).result = .ok (stripNL resp) := by
      unfold ForwardCommandToServer
      rw [hr]
    rw [h]
  · cases h : (ForwardCommandToServer line backend).result <;> simp [h]
  · cases h : (ForwardCommandToServer line backend).result <;> simp [h]

theorem C8_dump_ignores_cache_witness :
    (ProxyClientCommand "DUMP\n" ⟨[("x", ⟨"5", 0⟩)]⟩ (fun _ => .ok "x, y") 0).cache =
      ⟨[("x", ⟨"5", 0⟩)]⟩ ∧
    (ProxyClientCommand "DUMP\n" ⟨[("x", ⟨"5", 0⟩)]⟩ (fun _ => .ok "x, y") 0).backendCalls
      = 1 ∧
    (ProxyClientCommand "DUMP\n" ⟨[("x", ⟨"5", 0⟩)]⟩ (fun _ => .ok "x, y") 0).sentLines =
      ["x, y\n"] ∧
    (ProxyClientCommand "DUMP\n" ⟨[("x", ⟨"5", 0⟩)]⟩ (fun _ => .ok "x, y") 0).sentLines =
      (ProxyClientCommand "DUMP\n" emptyStore (fun _ => .ok "x, y") 0).sentLines ∧
    (ProxyClientCommand "DUMP\n" ⟨[("x", ⟨"5", 0⟩)]⟩ (fun _ => .ok "x, y") 0).raised =
      (ProxyClientCommand "DUMP\n" emptyStore (fun _ => .ok "x, y") 0).raised := by
  obtain ⟨h1, h2, h3, h4, h5⟩ := C8_dump_ignores_cache "DUMP\n" "" "" ⟨[("x", ⟨"5", 0⟩)]⟩
    emptyStore (fun _ => .ok "x, y") 0 (by decide)
  refine ⟨h1, h2, ?_, h4, h5⟩
  rw [h3 "x, y" rfl]
  decide

theorem GetValue_noNL (cache : KeyValueStore) (name : String) (maxAge now : Nat) (v : String)
    (hc : NoNLValues cache) (hv : cache.GetValue name maxAge now = some v) :
    '\n' ∉ v.data := by
  unfold KeyValueStore.GetValue KeyValueStore.lookup at hv
  cases hl : lookupEntries cache.entries name with
  | none => rw [hl] at hv; exact absurd hv (by simp)
  | some e =>
    rw [hl] at hv
    by_cases hage : now - e.writtenAt ≤ maxAge
    · simp [hage] at hv
      have hm := hc (name, e) (lookupEntries_mem _ _ _ hl)
      simpa [hv] using hm
    · simp [hage] at hv

/-- C10: for every PUT, GET, or DUMP command whose handling completes without
an exception, exactly one line is written back to the client and it ends in
exactly one newline character: the forwarding client strips all leading and
trailing newlines from the backend response and `SendText` appends exactly
one.  The hypothesis `NoNLValues cache` (cached values contain no newline)
holds for every reachable cache, since values enter the cache only as parsed
whitespace-separated payloads. -/
theorem C10_reply_one_newline (line : String) (cache : KeyValueStore)
    (backend : String → NetOutcome) (now : Nat)
    (hc : NoNLValues cache)
    (hcmd : (ParseCommand line).1 = "PUT" ∨ (ParseCommand line).1 = "GET" ∨
      (ParseCommand line).1 = "DUMP")
    (hdone : (ProxyClientCommand line cache backend now).raised = none) :
    ∃ r, (ProxyClientCommand line cache backend now).sentLines = [r] ∧ trailingNL r = 1 := by
  rcases hP : ParseCommand line with ⟨cmd, key, payload⟩
  rw [hP] at hcmd
  simp only at hcmd
  rcases hcmd with hcv | hcv | hcv
  · subst hcv
    rw [proxy_put_eq line key payload cache backend now hP] at hdone ⊢
    cases hb : backend line with
    | connectFail => simp [ForwardCommandToServer, hb] at hdone
    | sendFail => simp [ForwardCommandToServer, hb] at hdone
    | recvFail => simp [ForwardCommandToServer, hb] at hdone
    | ok resp =>
      simp only [ForwardCommandToServer, hb]
      exact ⟨SendText (stripNL resp), rfl, trailingNL_stripNL_append resp⟩
  · subst hcv
    rw [proxy_get_eq line key payload cache backend now hP] at hdone ⊢
    by_cases hf : pyFalsy (cache.GetValue key MAX_CACHE_AGE_SEC now) = true
    · cases hb : backend line with
      | connectFail => simp [GetCommand, ForwardCommandToServer, hf, hb] at hdone
      | sendFail => simp [GetCommand, ForwardCommandToServer, hf, hb] at hdone
      | recvFail => simp [GetCommand, ForwardCommandToServer, hf, hb] at hdone
      | ok resp =>
        by_cases hs : stripNL resp = "Key does not exist!"
        · refine ⟨SendText (stripNL resp), ?_, trailingNL_stripNL_append resp⟩
          simp [GetCommand, ForwardCommandToServer, hf, hb, hs]
        · exfalso
          simp [GetCommand, ForwardCommandToServer, hf, hb, hs] at hdone
    · cases hres : cache.GetValue key MAX_CACHE_AGE_SEC now with
      | none => rw [hres] at hf; simp [pyFalsy] at hf
      | some v =>
        rw [hres] at hf
        have hvne : v ≠ "" := by simpa [pyFalsy] using hf
        have hnl := GetValue_noNL cache key MAX_CACHE_AGE_SEC now v hc hres
        refine ⟨SendText v, ?_, trailingNL_noNL_append v hnl⟩
        simp [GetCommand, hres, pyFalsy, hvne]
  · subst hcv
    rw [proxy_dump_eq line key payload cache backend now hP] at hdone ⊢
    cases hb : backend line with
    | connectFail => simp [ForwardCommandToServer, hb] at hdone
    | sendFail => simp [ForwardCommandToServer, hb] at hdone
    | recvFail => simp [ForwardCommandToServer, hb] at hdone
    | ok resp =>
      simp only [ForwardCommandToServer, hb]
      exact ⟨SendText (stripNL resp), rfl, trailingNL_stripNL_append resp⟩

theorem C10_reply_one_newline_witness :
    NoNLValues ⟨[("x", ⟨"5", 0⟩)]⟩ ∧
    ((ParseCommand "GET x\n").1 = "PUT" ∨ (ParseCommand "GET x\n").1 = "GET" ∨
      (ParseCommand "GET x\n").1 = "DUMP") ∧
    (ProxyClientCommand "GET x\n" ⟨[("x", ⟨"5", 0⟩)]⟩ (fun _ => .ok "7") 0).raised = none ∧
    ∃ r, (ProxyClientCommand "GET x\n" ⟨[("x", ⟨"5", 0⟩)]⟩
      (fun _ => .ok "7") 0).sentLines = [r] ∧ trailingNL r = 1 :=
  ⟨by unfold NoNLValues; decide, by decide, by decide,
    C10_reply_one_newline "GET x\n" ⟨[("x", ⟨"5", 0⟩)]⟩ (fun _ => .ok "7") 0
      (by unfold NoNLValues; decide) (by decide) (by decide)⟩
